import Mathlib

/-!
Verification of the medical-certificate expert system
(`expert_system.py`) and the arrival-rate logic of the clinic
simulation (`simulation.py`).

Python dictionaries are embedded as association lists of
string-keyed dynamic values; Python exceptions are embedded as
`Except String`.  The wall clock (`datetime.now()`) is passed as an
explicit parameter, so that dependence on it is visible in the types.
-/

namespace MedCert

/-- Minute-granularity timestamp, mirroring the fields the code reads
from a Python `datetime` via `strftime` patterns. -/
structure DateTime where
  y : Nat
  mo : Nat
  d : Nat
  h : Nat
  mi : Nat
deriving DecidableEq

/-- Dynamic Python value, covering the value shapes the pipeline can
meet in a Facts mapping. -/
inductive Value where
  | vnone
  | vbool (b : Bool)
  | vstr (s : String)
  | vint (n : Int)
  | vlist (xs : List Value)
  | vdt (t : DateTime)

mutual

/-- Boolean equality on dynamic values. -/
def Value.beq : Value → Value → Bool
  | .vnone, .vnone => true
  | .vbool a, .vbool b => a == b
  | .vstr a, .vstr b => a == b
  | .vint a, .vint b => a == b
  | .vdt a, .vdt b => a == b
  | .vlist xs, .vlist ys => Value.beqList xs ys
  | _, _ => false

/-- Boolean equality on lists of dynamic values. -/
def Value.beqList : List Value → List Value → Bool
  | [], [] => true
  | x :: xs, y :: ys => Value.beq x y && Value.beqList xs ys
  | _, _ => false

end

mutual

theorem Value.eq_of_beq : ∀ {a b : Value}, Value.beq a b = true → a = b
  | .vnone, .vnone, _ => rfl
  | .vbool a, .vbool b, h => by
    simpa [Value.beq] using congrArg Value.vbool (by simpa [Value.beq] using h)
  | .vstr a, .vstr b, h => congrArg Value.vstr (by simpa [Value.beq] using h)
  | .vint a, .vint b, h => congrArg Value.vint (by simpa [Value.beq] using h)
  | .vdt a, .vdt b, h => congrArg Value.vdt (by simpa [Value.beq] using h)
  | .vlist xs, .vlist ys, h =>
    congrArg Value.vlist (Value.eqList_of_beqList (by simpa [Value.beq] using h))

theorem Value.eqList_of_beqList :
    ∀ {xs ys : List Value}, Value.beqList xs ys = true → xs = ys
  | [], [], _ => rfl
  | x :: xs, y :: ys, h => by
    have h' : Value.beq x y = true ∧ Value.beqList xs ys = true := by
      simpa [Value.beqList, Bool.and_eq_true] using h
    exact by rw [Value.eq_of_beq h'.1, Value.eqList_of_beqList h'.2]

end

mutual

theorem Value.beq_refl : ∀ a : Value, Value.beq a a = true
  | .vnone => rfl
  | .vbool a => by simp [Value.beq]
  | .vstr a => by simp [Value.beq]
  | .vint a => by simp [Value.beq]
  | .vdt a => by simp [Value.beq]
  | .vlist xs => by simpa [Value.beq] using Value.beqList_refl xs

theorem Value.beqList_refl : ∀ xs : List Value, Value.beqList xs xs = true
  | [] => rfl
  | x :: xs => by
    simp [Value.beqList, Bool.and_eq_true]
    exact ⟨Value.beq_refl x, Value.beqList_refl xs⟩

end

instance : DecidableEq Value := fun a b =>
  if h : Value.beq a b = true then .isTrue (Value.eq_of_beq h)
  else .isFalse (fun he => h (he ▸ Value.beq_refl a))

instance {ε α : Type} [DecidableEq ε] [DecidableEq α] :
    DecidableEq (Except ε α) := fun a b =>
  match a, b with
  | .ok x, .ok y =>
    if h : x = y then .isTrue (by rw [h])
    else .isFalse (fun c => by cases c; exact h rfl)
  | .error x, .error y =>
    if h : x = y then .isTrue (by rw [h])
    else .isFalse (fun c => by cases c; exact h rfl)
  | .ok _, .error _ => .isFalse (fun c => by cases c)
  | .error _, .ok _ => .isFalse (fun c => by cases c)

/-- Python truthiness of a value (`bool(v)`). -/
def truthy : Value → Bool
  | .vnone => false
  | .vbool b => b
  | .vstr s => !(s == "")
  | .vint n => !(n == 0)
  | .vlist xs => !xs.isEmpty
  | .vdt _ => true

/-- A Python dict, as an insertion-ordered association list. -/
abbrev Dict := List (String × Value)

/-- First-match key lookup (`d[k]` / `k in d`). -/
def dgetOpt : Dict → String → Option Value
  | [], _ => none
  | (k', v') :: rest, k => if k' = k then some v' else dgetOpt rest k

/-- Key membership test (`k in d`). -/
def hasKey (d : Dict) (k : String) : Bool :=
  (dgetOpt d k).isSome

/-- Single-key assignment `d[k] = v`: replaces the value in place when
the key exists, appends otherwise (Python dict insertion order). -/
def dset : Dict → String → Value → Dict
  | [], k, v => [(k, v)]
  | (k', v') :: rest, k, v =>
    if k' = k then (k, v) :: rest else (k', v') :: dset rest k v

/-- `d.update(upd)`: assigns every key of `upd` in order. -/
def dupdate : Dict → Dict → Dict
  | d, [] => d
  | d, (k, v) :: rest => dupdate (dset d k v) rest

/-- Keyed read `facts[k]`: raises `KeyError` when the key is absent. -/
def fget (d : Dict) (k : String) : Except String Value :=
  match dgetOpt d k with
  | some v => .ok v
  | none => .error ("KeyError: " ++ k)

/-- Defaulting read `facts.get(k)`: `None` when the key is absent. -/
def fgetD (d : Dict) (k : String) : Value :=
  (dgetOpt d k).getD .vnone

/-- ASCII-lowercased copy of a string, character by character (the
embedding of `str.lower()`; the vocabularies the pipeline compares
against are all ASCII). -/
def strLower (s : String) : String :=
  String.mk (s.data.map Char.toLower)

/-- `v.lower()`: only strings have the attribute. -/
def pyLower : Value → Except String String
  | .vstr s => .ok (strLower s)
  | _ => .error "AttributeError: lower"

/-- Iterating a value: lists yield their elements, strings their
characters (as one-character strings); other values raise `TypeError`. -/
def pyIter : Value → Except String (List Value)
  | .vlist xs => .ok xs
  | .vstr s => .ok (s.data.map (fun c => .vstr (String.mk [c])))
  | _ => .error "TypeError: not iterable"

/-- `len(v)` for sized values; `TypeError` otherwise. -/
def pyLen : Value → Except String Nat
  | .vlist xs => .ok xs.length
  | .vstr s => .ok s.length
  | _ => .error "TypeError: no len"

/-- Zero-padded two-digit rendering of a field of a timestamp. -/
def pad2 (n : Nat) : String :=
  if n < 10 then "0" ++ toString n else toString n

/-- Zero-padded four-digit rendering of a year. -/
def pad4 (n : Nat) : String :=
  if n < 10 then "000" ++ toString n
  else if n < 100 then "00" ++ toString n
  else if n < 1000 then "0" ++ toString n
  else toString n

/-- `t.strftime("%Y%m%d%H%M")`. -/
def strftimeYmdHM (t : DateTime) : String :=
  pad4 t.y ++ pad2 t.mo ++ pad2 t.d ++ pad2 t.h ++ pad2 t.mi

mutual

/-- Python `repr` of a value (element rendering inside lists). -/
def pyRepr : Value → String
  | .vnone => "None"
  | .vbool true => "True"
  | .vbool false => "False"
  | .vstr s => "\x27" ++ s ++ "\x27"
  | .vint n => toString n
  | .vdt t =>
    "datetime(" ++ toString t.y ++ ", " ++ toString t.mo ++ ", " ++
      toString t.d ++ ", " ++ toString t.h ++ ", " ++ toString t.mi ++ ")"
  | .vlist xs => "[" ++ pyReprList xs ++ "]"

/-- Comma-separated `repr` of list elements. -/
def pyReprList : List Value → String
  | [] => ""
  | [v] => pyRepr v
  | v :: rest => pyRepr v ++ ", " ++ pyReprList rest

end

/-- Python `str` of a value, as used by f-string interpolation. -/
def pyStr : Value → String
  | .vstr s => s
  | .vdt t =>
    pad4 t.y ++ "-" ++ pad2 t.mo ++ "-" ++ pad2 t.d ++ " " ++
      pad2 t.h ++ ":" ++ pad2 t.mi ++ ":00"
  | v => pyRepr v

/-!
The decision records produced by the pipeline.  A Python stage result
is a dict with a fixed set of possible keys; we embed it as a structure
of optional fields (absent key = `none`).
-/

/-- One stage's (or the pipeline's terminal) decision record. -/
structure Decision where
  decision : String
  reason : Option String := none
  complexity : Option String := none
  severity : Option ℚ := none
  record_id : Option String := none
  record_time : Option DateTime := none
  approved_by : Option String := none
deriving DecidableEq

/-!
`Blackboard.__init__`: the initial facts of a fresh blackboard.
-/

/-- Initial facts of `Blackboard.__init__` (insertion order as in the
source). -/
def defaultFacts : Dict :=
  [("student_id", .vnone),
   ("has_excuse_letter", .vbool false),
   ("symptoms", .vlist []),
   ("illness_type", .vnone),
   ("timestamp", .vnone),
   ("valid_id", .vbool false),
   ("parent_guardian_verified", .vbool false)]

/-!
`NurseExpert` (expert_system.py lines 35-74).
-/

/-- `NurseExpert.simple_cases`. -/
def simpleCases : List String :=
  ["cold", "flu", "cough", "headache", "fever", "stomach_ache",
   "sore throat"]

/-- Nurse rule-1 rejection record. -/
def nurseRejectD : Decision :=
  { decision := "reject", reason := some "No valid excuse letter or ID",
    complexity := some "simple" }

/-- Nurse rule-2 approval record. -/
def nurseApproveD : Decision :=
  { decision := "approve",
    reason := some "Simple case with valid documentation",
    complexity := some "simple" }

/-- Nurse rule-3 referral record. -/
def nurseReferD : Decision :=
  { decision := "refer", reason := some "Complex case needs doctor review",
    complexity := some "complex" }

/-- The generator `any(symptom.lower() in self.simple_cases for symptom
in symptoms)`: short-circuits at the first match, so faults in later
elements are never raised once a match is found. -/
def anySimple : List Value → Except String Bool
  | [] => .ok false
  | v :: rest =>
    match pyLower v with
    | .error e => .error e
    | .ok s =>
      if simpleCases.contains s then .ok true else anySimple rest

/-- `NurseExpert._determine_complexity`. -/
def determineComplexity (symptoms : Value) : Except String String :=
  match pyIter symptoms with
  | .error e => .error e
  | .ok xs =>
    match anySimple xs with
    | .error e => .error e
    | .ok b => .ok (if b then "simple" else "complex")

/-- `NurseExpert.evaluate`.  Rule 1 mirrors the short-circuit of
`not facts[...] or not facts[...]`. -/
def nurse_evaluate (facts : Dict) : Except String Decision :=
  match fget facts "has_excuse_letter" with
  | .error e => .error e
  | .ok letter =>
    if truthy letter = false then .ok nurseRejectD
    else
      match fget facts "valid_id" with
      | .error e => .error e
      | .ok vid =>
        if truthy vid = false then .ok nurseRejectD
        else
          match fget facts "symptoms" with
          | .error e => .error e
          | .ok syms =>
            match determineComplexity syms with
            | .error e => .error e
            | .ok c =>
              if c = "simple" then .ok nurseApproveD else .ok nurseReferD

/-!
`DoctorExpert` (expert_system.py lines 76-115).
-/

/-- `DoctorExpert.complex_conditions`. -/
def complexConditions : List String :=
  ["recurring fever", "severe injury", "chronic pain", "mental health",
   "surgery recovery", "infectious disease"]

/-- Python substring test `needle in hay` on character lists. -/
def pyIn (needle : List Char) : List Char → Bool
  | [] => needle.isEmpty
  | c :: rest => needle.isPrefixOf (c :: rest) || pyIn needle rest

/-- Python substring test `needle in hay` on strings. -/
def strIn (needle hay : String) : Bool :=
  pyIn needle.data hay.data

/-- Doctor documentation-failure rejection record. -/
def docInsufficientD : Decision :=
  { decision := "reject",
    reason := some "Insufficient documentation for complex case" }

/-- Doctor low-severity rejection record. -/
def docNoWarrantD : Decision :=
  { decision := "reject",
    reason := some "Condition does not warrant certificate" }

/-- `DoctorExpert._validate_documentation`, with the short-circuit of
the chained `and`. -/
def validateDocumentation (facts : Dict) : Except String Bool :=
  match fget facts "has_excuse_letter" with
  | .error e => .error e
  | .ok letter =>
    if truthy letter = false then .ok false
    else
      match fget facts "valid_id" with
      | .error e => .error e
      | .ok vid =>
        if truthy vid = false then .ok false
        else
          match fget facts "symptoms" with
          | .error e => .error e
          | .ok syms =>
            match pyLen syms with
            | .error e => .error e
            | .ok n => .ok (decide (0 < n))

/-- The sum `sum(1 for s in symptoms if any(c in s.lower() for c in
self.complex_conditions))`, iterated in order. -/
def countSevere : List Value → Except String Nat
  | [] => .ok 0
  | v :: rest =>
    match pyLower v with
    | .error e => .error e
    | .ok s =>
      match countSevere rest with
      | .error e => .error e
      | .ok c =>
        .ok ((if complexConditions.any (fun cond => strIn cond s)
              then 1 else 0) + c)

/-- `DoctorExpert._assess_severity`: the float division is embedded as
exact rational division. -/
def assessSeverity (symptoms : Value) : Except String ℚ :=
  match pyIter symptoms with
  | .error e => .error e
  | .ok xs =>
    match countSevere xs with
    | .error e => .error e
    | .ok cnt => .ok ((cnt : ℚ) / ((max 1 xs.length : ℕ) : ℚ))

/-- `DoctorExpert.evaluate` with `confidence_threshold = 0.7`. -/
def doctor_evaluate (facts : Dict) : Except String Decision :=
  match validateDocumentation facts with
  | .error e => .error e
  | .ok valid =>
    if valid = false then .ok docInsufficientD
    else
      match fget facts "symptoms" with
      | .error e => .error e
      | .ok syms =>
        match assessSeverity syms with
        | .error e => .error e
        | .ok sev =>
          if (7 : ℚ) / 10 ≤ sev then
            .ok { decision := "approve",
                  reason := some "Complex case validated and approved",
                  severity := some sev }
          else .ok docNoWarrantD

/-!
`ClinicStaffExpert` (expert_system.py lines 117-147).
-/

/-- `ClinicStaffExpert.required_fields` (a set in the source; order is
irrelevant to the all-quantified truthiness check). -/
def requiredFields : List String :=
  ["student_id", "symptoms", "timestamp", "has_excuse_letter", "valid_id"]

/-- Staff missing-information rejection record. -/
def staffMissingD : Decision :=
  { decision := "reject",
    reason := some "Missing required information for record" }

/-- `ClinicStaffExpert._validate_fields`: `facts.get(field)` truthiness
for every required field. -/
def validateFields (facts : Dict) : Bool :=
  requiredFields.all (fun f => truthy (fgetD facts f))

/-- `ClinicStaffExpert._generate_record_id`: the f-string
`MC-{student_id}-{timestamp.strftime(...)}`; `strftime` on a
non-datetime raises `AttributeError`. -/
def generateRecordId (facts : Dict) : Except String String :=
  match fget facts "student_id" with
  | .error e => .error e
  | .ok sid =>
    match fget facts "timestamp" with
    | .error e => .error e
    | .ok ts =>
      match ts with
      | .vdt t => .ok ("MC-" ++ pyStr sid ++ "-" ++ strftimeYmdHM t)
      | _ => .error "AttributeError: strftime"

/-- `ClinicStaffExpert.evaluate`; `now` is the wall clock read by
`datetime.now()` for the `record_time` field. -/
def staff_evaluate (facts : Dict) (now : DateTime) : Except String Decision :=
  if validateFields facts = false then .ok staffMissingD
  else
    match generateRecordId facts with
    | .error e => .error e
    | .ok rid =>
      .ok { decision := "record", reason := some "Case recorded in system",
            record_id := some rid, record_time := some now }

/-!
`ControlShell.process_case` and `analyze_case`
(expert_system.py lines 149-222).
-/

/-- The three expert stages, used to record which stages a case
actually reached. -/
inductive Stage where
  | nurse
  | doctor
  | staff
deriving DecidableEq

/-- The record returned by the `except` handler of `process_case` /
`analyze_case`. -/
def systemError (e : String) : Decision :=
  { decision := "reject", reason := some ("System error: " ++ e),
    complexity := some "unknown" }

/-- The facts after `self.blackboard.facts.update(case_data)` and the
compatibility branch `if "valid_id" not in self.blackboard.facts`. -/
def mergedFacts (cd : Dict) : Dict :=
  let f0 := dupdate defaultFacts cd
  if hasKey f0 "valid_id" then f0 else dset f0 "valid_id" (.vbool true)

/-- Step 3 finalization: an `approve` record is built from the staff
`record` (keyed reads of `record_id` and of the nurse `complexity`
can raise `KeyError`); any other staff decision is returned as is. -/
def finalize (nd sd : Decision) : Except String Decision :=
  if sd.decision = "record" then
    match sd.record_id, nd.complexity with
    | some rid, some comp =>
      .ok { decision := "approve", record_id := some rid,
            approved_by := some (if comp = "simple" then "nurse"
                                 else "doctor") }
    | none, _ => .error "KeyError: record_id"
    | some _, none => .error "KeyError: complexity"
  else .ok sd

/-- Step 3 of `process_case` (staff evaluation followed by
finalization), parameterized by the nurse decision and the stages
already reached; `tr` records that the staff stage ran. -/
def staffStep (facts : Dict) (nd : Decision) (tr : List Stage)
    (now : DateTime) : Except String (Decision × List Stage) :=
  match staff_evaluate facts now with
  | .error e => .error e
  | .ok sd =>
    match finalize nd sd with
    | .error e => .error e
    | .ok fd => .ok (fd, tr)

/-- The body of the `try` block of `process_case`: the decision it
returns together with the list of stages whose `evaluate` ran; an
uncaught Python exception is the `error` case. -/
def processCaseBody (cd : Dict) (now : DateTime) :
    Except String (Decision × List Stage) :=
  let facts := mergedFacts cd
  match nurse_evaluate facts with
  | .error e => .error e
  | .ok nd =>
    if nd.decision = "reject" then .ok (nd, [.nurse])
    else if nd.decision = "refer" ∨ nd.complexity = some "complex" then
      match doctor_evaluate facts with
      | .error e => .error e
      | .ok dd =>
        if dd.decision = "reject" then .ok (dd, [.nurse, .doctor])
        else staffStep facts nd [.nurse, .doctor, .staff] now
    else staffStep facts nd [.nurse, .staff] now

/-- `ControlShell.process_case`: the `try` body with every exception
caught and converted into a `System error` rejection. -/
def process_case (cd : Dict) (now : DateTime) : Decision :=
  match processCaseBody cd now with
  | .ok (d, _) => d
  | .error e => systemError e

/-- `analyze_case`: builds a fresh `ControlShell` (hence a fresh
blackboard) on every call and runs `process_case`; its own `except`
handler is unreachable because `process_case` already catches. -/
def analyze_case (cd : Dict) (now : DateTime) : Decision :=
  process_case cd now

/-- The stages whose `evaluate` ran during a non-faulting evaluation. -/
def stages_evaluated (cd : Dict) (now : DateTime) : Option (List Stage) :=
  (processCaseBody cd now).toOption.map Prod.snd

/-!
`ClinicSimulation.is_peak_hour` and `ClinicSimulation.get_arrival_rate`
(simulation.py lines 113-133).  `random.uniform(a, b)` is embedded as
the pair `(a, b)` of bounds of the distribution the delay is drawn
from; times are exact rationals.
-/

/-- `self.peak_hours`. -/
def peakHours : List (ℚ × ℚ) := [(10, 11.5), (13.5, 17)]

/-- Python `x % 24` for a nonnegative float, as exact rationals. -/
def qmod24 (x : ℚ) : ℚ := x - 24 * ⌊x / 24⌋

/-- `ClinicSimulation.is_peak_hour(time)`: converts its argument from
minutes to an hour of day and tests it against the peak ranges. -/
def is_peak_hour (time : ℚ) : Bool :=
  peakHours.any (fun p =>
    decide (p.1 ≤ qmod24 (time / 60)) && decide (qmod24 (time / 60) ≤ p.2))

/-- `ClinicSimulation.get_arrival_rate`: computes the hour of day from
`env.now` (minutes) and passes that HOUR value to `is_peak_hour`, which
expects minutes; returns the bounds handed to `random.uniform`. -/
def get_arrival_rate (now : ℚ) : ℚ × ℚ :=
  let currentHour := qmod24 (now / 60)
  if is_peak_hour currentHour then (5, 10) else (15, 25)

/-!
Dictionary lemmas.
-/

theorem dgetOpt_dset_self : ∀ (d : Dict) (k : String) (v : Value),
    dgetOpt (dset d k v) k = some v
  | [], k, v => by simp [dset, dgetOpt]
  | (k', v') :: rest, k, v => by
    by_cases h : k' = k
    · simp [dset, h, dgetOpt]
    · simp [dset, h, dgetOpt, dgetOpt_dset_self rest k v]

theorem dgetOpt_dset_ne : ∀ (d : Dict) (k k' : String) (v : Value),
    k' ≠ k → dgetOpt (dset d k' v) k = dgetOpt d k
  | [], k, k', v, h => by simp [dset, dgetOpt, h]
  | (k0, v0) :: rest, k, k', v, h => by
    by_cases h0 : k0 = k'
    · simp [dset, h0, dgetOpt, h, h0 ▸ h]
    · simp only [dset, if_neg h0]
      by_cases h1 : k0 = k
      · simp [dgetOpt, h1]
      · simp [dgetOpt, h1, dgetOpt_dset_ne rest k k' v h]

theorem hasKey_dset : ∀ (d : Dict) (k k' : String) (v : Value),
    hasKey d k = true → hasKey (dset d k' v) k = true := by
  intro d k k' v h
  by_cases he : k' = k
  · subst he
    simp [hasKey, dgetOpt_dset_self]
  · simpa [hasKey, dgetOpt_dset_ne d k k' v he] using h

theorem dgetOpt_dupdate_none : ∀ (upd d : Dict) (k : String),
    dgetOpt upd k = none → dgetOpt (dupdate d upd) k = dgetOpt d k
  | [], d, k, _ => rfl
  | (k0, v0) :: rest, d, k, h => by
    have h0 : k0 ≠ k := by
      intro he
      simp [dgetOpt, he] at h
    have hrest : dgetOpt rest k = none := by
      simpa [dgetOpt, h0] using h
    calc dgetOpt (dupdate (dset d k0 v0) rest) k
        = dgetOpt (dset d k0 v0) k := dgetOpt_dupdate_none rest _ k hrest
      _ = dgetOpt d k := dgetOpt_dset_ne d k k0 v0 h0

theorem dgetOpt_dupdate_some : ∀ (upd d : Dict) (k : String) (v : Value),
    (upd.map Prod.fst).Nodup → dgetOpt upd k = some v →
    dgetOpt (dupdate d upd) k = some v
  | [], d, k, v, _, h => by simp [dgetOpt] at h
  | (k0, v0) :: rest, d, k, v, hnd, h => by
    have hnd' : (rest.map Prod.fst).Nodup := (List.nodup_cons.mp hnd).2
    by_cases h0 : k0 = k
    · subst h0
      have hv : v0 = v := by simpa [dgetOpt] using h
      subst hv
      have hk : dgetOpt rest k0 = none := by
        cases hg : dgetOpt rest k0 with
        | none => rfl
        | some w =>
          exfalso
          have hmem : k0 ∈ rest.map Prod.fst := by
            clear hnd hnd' h
            induction rest with
            | nil => simp [dgetOpt] at hg
            | cons p ps ih =>
              by_cases hp : p.1 = k0
              · simp [hp]
              · refine List.mem_cons_of_mem _ (ih ?_)
                obtain ⟨p1, p2⟩ := p
                simpa [dgetOpt, hp] using hg
          exact (List.nodup_cons.mp hnd).1 hmem
      calc dgetOpt (dupdate (dset d k0 v0) rest) k0
          = dgetOpt (dset d k0 v0) k0 := dgetOpt_dupdate_none rest _ k0 hk
        _ = some v0 := dgetOpt_dset_self d k0 v0
    · have hrest : dgetOpt rest k = some v := by simpa [dgetOpt, h0] using h
      exact dgetOpt_dupdate_some rest (dset d k0 v0) k v hnd' hrest

theorem hasKey_dupdate : ∀ (upd d : Dict) (k : String),
    hasKey d k = true → hasKey (dupdate d upd) k = true
  | [], _, _, h => h
  | (k0, v0) :: rest, d, k, h =>
    hasKey_dupdate rest (dset d k0 v0) k (hasKey_dset d k k0 v0 h)

/-!
Facts-merging lemmas: the compatibility branch of `process_case` is
dead code (the blackboard already holds a `valid_id` key), so the
merged facts are exactly `defaults.update(case_data)`.
-/

theorem mergedFacts_eq (cd : Dict) : mergedFacts cd = dupdate defaultFacts cd := by
  have h : hasKey (dupdate defaultFacts cd) "valid_id" = true :=
    hasKey_dupdate cd defaultFacts "valid_id" (by decide)
  simp [mergedFacts, h]

theorem mergedFacts_absent (cd : Dict) (k : String)
    (h : dgetOpt cd k = none) :
    dgetOpt (mergedFacts cd) k = dgetOpt defaultFacts k := by
  rw [mergedFacts_eq]
  exact dgetOpt_dupdate_none cd defaultFacts k h

theorem mergedFacts_present (cd : Dict) (k : String) (v : Value)
    (hnd : (cd.map Prod.fst).Nodup) (h : dgetOpt cd k = some v) :
    dgetOpt (mergedFacts cd) k = some v := by
  rw [mergedFacts_eq]
  exact dgetOpt_dupdate_some cd defaultFacts k v hnd h

/-!
Stage lemmas.
-/

/-- The nurse scan over a list of strings computes the boolean
`any (lowered symptom in simple_cases)`. -/
theorem anySimple_map_str : ∀ syms : List String,
    anySimple (syms.map Value.vstr) =
      .ok (syms.any (fun s => simpleCases.contains (strLower s)))
  | [] => rfl
  | s :: rest => by
    by_cases h : strLower s ∈ simpleCases
    · simp [anySimple, pyLower, h]
    · simp [anySimple, pyLower, h, anySimple_map_str rest]

/-- The doctor scan over a list of strings counts the symptoms whose
lowercased text has a complex-condition substring. -/
theorem countSevere_map_str : ∀ syms : List String,
    countSevere (syms.map Value.vstr) =
      .ok (syms.countP
        (fun s => complexConditions.any (fun c => strIn c (strLower s))))
  | [] => rfl
  | s :: rest => by
    simp only [List.map_cons, countSevere, pyLower,
      countSevere_map_str rest, List.countP_cons]
    by_cases h : complexConditions.any (fun c => strIn c (strLower s)) = true
    · simp [h, Nat.add_comm]
    · simp [h]

/-- A case whose evaluated facts carry `has_excuse_letter = False` is
rejected by nurse rule 1 and the pipeline returns at once: only the
nurse stage runs. -/
theorem processCaseBody_letter_false (cd : Dict) (now : DateTime)
    (h : dgetOpt (mergedFacts cd) "has_excuse_letter" = some (.vbool false)) :
    processCaseBody cd now = .ok (nurseRejectD, [Stage.nurse]) := by
  have hn : nurse_evaluate (mergedFacts cd) = .ok nurseRejectD := by
    simp [nurse_evaluate, fget, h, truthy]
  simp [processCaseBody, hn, nurseRejectD]

/-- The staff step does not depend on the wall clock: `record_time` is
the only field `datetime.now()` feeds, and finalization drops it. -/
theorem staffStep_time_irrel (facts : Dict) (nd : Decision)
    (tr : List Stage) (t1 t2 : DateTime) :
    staffStep facts nd tr t1 = staffStep facts nd tr t2 := by
  by_cases hv : validateFields facts = false
  · simp [staffStep, staff_evaluate, hv]
  · cases hg : generateRecordId facts with
    | error e => simp [staffStep, staff_evaluate, hv, hg]
    | ok rid => simp [staffStep, staff_evaluate, hv, hg, finalize]

/-- The whole `try` body is independent of the wall clock. -/
theorem processCaseBody_time_irrel (cd : Dict) (t1 t2 : DateTime) :
    processCaseBody cd t1 = processCaseBody cd t2 := by
  simp only [processCaseBody]
  cases hn : nurse_evaluate (mergedFacts cd) with
  | error e => simp [hn]
  | ok nd =>
    simp only [hn]
    by_cases h1 : nd.decision = "reject"
    · simp [h1]
    · by_cases h2 : nd.decision = "refer" ∨ nd.complexity = some "complex"
      · simp only [if_neg h1, if_pos h2]
        cases hd : doctor_evaluate (mergedFacts cd) with
        | error e => simp [hd]
        | ok dd =>
          simp only [hd]
          by_cases h3 : dd.decision = "reject"
          · simp [h3]
          · simp only [if_neg h3]
            exact staffStep_time_irrel _ _ _ t1 t2
      · simp only [if_neg h1, if_neg h2]
        exact staffStep_time_irrel _ _ _ t1 t2

/-- A staff step that yields an `approve` decision must have passed the
required-fields validation and carries a record id. -/
theorem staffStep_approve (facts : Dict) (nd fd : Decision)
    (tr tr2 : List Stage) (t : DateTime)
    (h : staffStep facts nd tr t = .ok (fd, tr2))
    (ha : fd.decision = "approve") :
    validateFields facts = true ∧ fd.record_id ≠ none := by
  by_cases hv : validateFields facts = false
  · exfalso
    have hss : staffStep facts nd tr t = .ok (staffMissingD, tr) := by
      simp [staffStep, staff_evaluate, hv, finalize, staffMissingD]
    rw [hss] at h
    injection h with h'
    have hfd : staffMissingD.decision = fd.decision :=
      congrArg (fun p => p.1.decision) h'
    rw [ha] at hfd
    simp [staffMissingD] at hfd
  · refine ⟨by simpa using hv, ?_⟩
    cases hg : generateRecordId facts with
    | error e => simp [staffStep, staff_evaluate, hv, hg] at h
    | ok rid =>
      cases hc : nd.complexity with
      | none => simp [staffStep, staff_evaluate, hv, hg, finalize, hc] at h
      | some comp =>
        have hss : staffStep facts nd tr t = .ok ({ decision := "approve", record_id := some rid, approved_by := some (if comp = "simple" then "nurse" else "doctor") }, tr) := by
          simp [staffStep, staff_evaluate, hv, hg, finalize, hc]
        rw [hss] at h
        injection h with h'
        have hrid : fd.record_id = some rid := by
          have := congrArg (fun p => p.1.record_id) h'
          simpa using this.symm
        simp [hrid]

/-!
Claims.
-/

/-- C2: any Facts mapping (unique keys, as in a Python dict) carrying
`has_excuse_letter = False` terminates at the nurse stage with the
rule-1 rejection record (decision `reject`, reason "No valid excuse
letter or ID"), and the doctor and staff stages are never evaluated:
the stage trace is exactly `[nurse]`. -/
theorem C2_letter_false_nurse_reject (cd : Dict) (now : DateTime)
    (hnd : (cd.map Prod.fst).Nodup)
    (h : dgetOpt cd "has_excuse_letter" = some (.vbool false)) :
    analyze_case cd now = nurseRejectD ∧
    (analyze_case cd now).decision = "reject" ∧
    (analyze_case cd now).reason = some "No valid excuse letter or ID" ∧
    stages_evaluated cd now = some [Stage.nurse] := by
  have hm : dgetOpt (mergedFacts cd) "has_excuse_letter" =
      some (.vbool false) :=
    mergedFacts_present cd "has_excuse_letter" (.vbool false) hnd h
  have hb := processCaseBody_letter_false cd now hm
  refine ⟨?_, ?_, ?_, ?_⟩ <;>
    simp [analyze_case, process_case, stages_evaluated, hb, nurseRejectD,
      Except.toOption]

/-- C2 witness: the concrete mapping
`{has_excuse_letter: False, valid_id: True, symptoms: ["headache"]}`. -/
theorem C2_letter_false_nurse_reject_witness :
    analyze_case [("has_excuse_letter", .vbool false),
      ("valid_id", .vbool true),
      ("symptoms", .vlist [.vstr "headache"])] ⟨2024, 1, 15, 9, 30⟩ =
      nurseRejectD ∧
    stages_evaluated [("has_excuse_letter", .vbool false),
      ("valid_id", .vbool true),
      ("symptoms", .vlist [.vstr "headache"])] ⟨2024, 1, 15, 9, 30⟩ =
      some [Stage.nurse] := by
  have h := C2_letter_false_nurse_reject
    [("has_excuse_letter", .vbool false), ("valid_id", .vbool true),
     ("symptoms", .vlist [.vstr "headache"])] ⟨2024, 1, 15, 9, 30⟩
    (by decide) rfl
  exact ⟨h.1, h.2.2.2⟩

/-- C3: case evaluation is deterministic.  `analyze_case` builds a
fresh `ControlShell` (fresh blackboard) per call, so it is embedded as
a pure function of the case data and the wall clock; the returned
terminal record is moreover independent of the wall clock, the only
ambient input the evaluation reads (`datetime.now()` feeds only the
staff stage's `record_time`, which finalization drops). -/
theorem C3_determinism (cd : Dict) (t1 t2 : DateTime) :
    analyze_case cd t1 = analyze_case cd t2 := by
  simp [analyze_case, process_case, processCaseBody_time_irrel cd t1 t2]

/-- C8: the evaluation entry point is total (it never raises): its
result is the `try`-body result when that body does not fault, and a
`reject` record whose reason reports the fault otherwise. -/
theorem C8_faults_contained (cd : Dict) (now : DateTime) :
    (∃ d tr, processCaseBody cd now = .ok (d, tr) ∧
      analyze_case cd now = d) ∨
    (∃ e, processCaseBody cd now = .error e ∧
      (analyze_case cd now).decision = "reject" ∧
      (analyze_case cd now).reason = some ("System error: " ++ e)) := by
  cases hb : processCaseBody cd now with
  | ok p =>
    obtain ⟨d, tr⟩ := p
    exact Or.inl ⟨d, tr, rfl, by simp [analyze_case, process_case, hb]⟩
  | error e =>
    exact Or.inr ⟨e, rfl, by
      simp [analyze_case, process_case, hb, systemError]⟩

/-- C5: with a valid letter and id, the nurse stage approves as a
`simple` case exactly when some symptom, lowercased, is an exact member
of the simple-case vocabulary, and refers as `complex` otherwise. -/
theorem C5_nurse_classification (facts : Dict) (syms : List String)
    (hl : dgetOpt facts "has_excuse_letter" = some (.vbool true))
    (hv : dgetOpt facts "valid_id" = some (.vbool true))
    (hs : dgetOpt facts "symptoms" = some (.vlist (syms.map Value.vstr))) :
    nurse_evaluate facts =
      .ok (if syms.any (fun s => simpleCases.contains (strLower s))
           then nurseApproveD else nurseReferD) ∧
    (nurse_evaluate facts = .ok nurseApproveD ↔
      ∃ s ∈ syms, strLower s ∈ simpleCases) := by
  have hne : nurseReferD ≠ nurseApproveD := by decide
  have h1 : nurse_evaluate facts =
      .ok (if syms.any (fun s => simpleCases.contains (strLower s))
           then nurseApproveD else nurseReferD) := by
    simp only [nurse_evaluate, fget, hl, hv, hs, truthy,
      determineComplexity, pyIter, anySimple_map_str syms]
    by_cases h : syms.any (fun s => simpleCases.contains (strLower s)) = true
    all_goals simp [h]
    all_goals exact (apply_ite Except.ok _ _ _).symm
  refine ⟨h1, ?_⟩
  rw [h1]
  by_cases h : syms.any (fun s => simpleCases.contains (strLower s)) = true
  · have hex : ∃ s ∈ syms, strLower s ∈ simpleCases := by simpa using h
    simp [h, hex]
  · have hnex : ¬∃ s ∈ syms, strLower s ∈ simpleCases := by simpa using h
    simp [h, hnex, hne]

/-- C5 witness: the single symptom "Cough" lowercases into the
vocabulary, so the nurse approves. -/
theorem C5_nurse_classification_witness :
    nurse_evaluate [("has_excuse_letter", .vbool true),
      ("valid_id", .vbool true), ("symptoms", .vlist [.vstr "Cough"])] =
      .ok (if ["Cough"].any (fun s => simpleCases.contains (strLower s))
           then nurseApproveD else nurseReferD) ∧
    (nurse_evaluate [("has_excuse_letter", .vbool true),
      ("valid_id", .vbool true), ("symptoms", .vlist [.vstr "Cough"])] =
      .ok nurseApproveD ↔ ∃ s ∈ ["Cough"], strLower s ∈ simpleCases) :=
  C5_nurse_classification
    [("has_excuse_letter", .vbool true), ("valid_id", .vbool true),
     ("symptoms", .vlist [.vstr "Cough"])] ["Cough"] rfl rfl rfl

/-- Severity as the specification states it: the count of symptoms
whose lowercased text contains a complex-condition vocabulary entry as
a substring, divided by `max 1 (number of symptoms)`. -/
def severityOf (syms : List String) : ℚ :=
  ((syms.countP
      (fun s => complexConditions.any (fun c => strIn c (strLower s))) : ℕ) : ℚ)
    / ((max 1 syms.length : ℕ) : ℚ)

/-- C6: with a valid letter and id, the doctor stage rejects an empty
symptom list for insufficient documentation; otherwise it computes the
severity ratio and approves exactly when it reaches the 0.7 confidence
threshold, rejecting with "Condition does not warrant certificate"
below it. -/
theorem C6_doctor_severity (facts : Dict) (syms : List String)
    (hl : dgetOpt facts "has_excuse_letter" = some (.vbool true))
    (hv : dgetOpt facts "valid_id" = some (.vbool true))
    (hs : dgetOpt facts "symptoms" = some (.vlist (syms.map Value.vstr))) :
    doctor_evaluate facts =
      .ok (if syms.isEmpty then docInsufficientD
           else if (7 : ℚ) / 10 ≤ severityOf syms then
             { decision := "approve",
               reason := some "Complex case validated and approved",
               severity := some (severityOf syms) }
           else docNoWarrantD) := by
  have hsev : assessSeverity (.vlist (syms.map Value.vstr)) =
      .ok (severityOf syms) := by
    simp [assessSeverity, pyIter, countSevere_map_str syms, severityOf]
  cases syms with
  | nil =>
    simp [doctor_evaluate, validateDocumentation, fget, hl, hv, hs,
      truthy, pyLen, docInsufficientD]
  | cons s rest =>
    have hval : validateDocumentation facts = .ok true := by
      simp [validateDocumentation, fget, hl, hv, hs, truthy, pyLen]
    have hfs : fget facts "symptoms" =
        .ok (.vlist (List.map Value.vstr (s :: rest))) := by
      simp [fget, hs]
    simp only [doctor_evaluate, hval, List.isEmpty_cons]
    rw [if_neg (by decide : ¬(true = false)),
      if_neg (by decide : ¬(false = true))]
    simp only [hfs, hsev]
    split_ifs <;> rfl

/-- C6 witness: two symptoms both matching the complex vocabulary give
severity 1 ≥ 0.7. -/
theorem C6_doctor_severity_witness :
    doctor_evaluate [("has_excuse_letter", .vbool true),
      ("valid_id", .vbool true),
      ("symptoms", .vlist [.vstr "recurring fever", .vstr "chronic pain"])] =
      .ok (if (["recurring fever", "chronic pain"] : List String).isEmpty
           then docInsufficientD
           else if (7 : ℚ) / 10 ≤ severityOf ["recurring fever", "chronic pain"]
           then { decision := "approve",
                  reason := some "Complex case validated and approved",
                  severity := some (severityOf ["recurring fever", "chronic pain"]) }
           else docNoWarrantD) :=
  C6_doctor_severity
    [("has_excuse_letter", .vbool true), ("valid_id", .vbool true),
     ("symptoms", .vlist [.vstr "recurring fever", .vstr "chronic pain"])]
    ["recurring fever", "chronic pain"] rfl rfl rfl

/-- C9: an overall `approve` decision is only produced by finalizing a
staff `record`, which requires every required field (`student_id`,
`symptoms`, `timestamp`, `has_excuse_letter`, `valid_id`) to be present
and truthy in the evaluated facts; the approve record carries a record
id. -/
theorem C9_approve_requires_fields (cd : Dict) (now : DateTime)
    (h : (analyze_case cd now).decision = "approve") :
    (∀ f ∈ requiredFields,
      hasKey (mergedFacts cd) f = true ∧
      truthy (fgetD (mergedFacts cd) f) = true) ∧
    (analyze_case cd now).record_id ≠ none := by
  have hkeys : ∀ f ∈ requiredFields, hasKey (mergedFacts cd) f = true := by
    intro f hf
    rw [mergedFacts_eq]
    refine hasKey_dupdate cd defaultFacts f ?_
    fin_cases hf <;> decide
  have hmain : validateFields (mergedFacts cd) = true ∧
      (analyze_case cd now).record_id ≠ none := by
    cases hb : processCaseBody cd now with
    | error e =>
      exfalso
      have hd : (analyze_case cd now).decision = "reject" := by
        simp [analyze_case, process_case, hb, systemError]
      rw [h] at hd
      simp at hd
    | ok p =>
      obtain ⟨fd, tr⟩ := p
      have hfd : analyze_case cd now = fd := by
        simp [analyze_case, process_case, hb]
      rw [hfd] at h ⊢
      simp only [processCaseBody] at hb
      cases hn : nurse_evaluate (mergedFacts cd) with
      | error e => simp [hn] at hb
      | ok nd =>
        simp only [hn] at hb
        by_cases h1 : nd.decision = "reject"
        · rw [if_pos h1] at hb
          injection hb with hb'
          have : nd.decision = fd.decision :=
            congrArg (fun p => p.1.decision) hb'
          exact absurd (h1.symm.trans (this.trans h)) (by decide)
        · rw [if_neg h1] at hb
          by_cases h2 : nd.decision = "refer" ∨ nd.complexity = some "complex"
          · rw [if_pos h2] at hb
            cases hd : doctor_evaluate (mergedFacts cd) with
            | error e => simp [hd] at hb
            | ok dd =>
              simp only [hd] at hb
              by_cases h3 : dd.decision = "reject"
              · rw [if_pos h3] at hb
                injection hb with hb'
                have : dd.decision = fd.decision :=
                  congrArg (fun p => p.1.decision) hb'
                exact absurd (h3.symm.trans (this.trans h)) (by decide)
              · rw [if_neg h3] at hb
                exact staffStep_approve _ nd fd _ tr now hb h
          · rw [if_neg h2] at hb
            exact staffStep_approve _ nd fd _ tr now hb h
  refine ⟨?_, hmain.2⟩
  intro f hf
  refine ⟨hkeys f hf, ?_⟩
  have := List.all_eq_true.mp hmain.1 f hf
  simpa using this

/-- C9 witness: a complete simple case is approved, and its evaluated
facts carry all required fields truthy. -/
theorem C9_approve_requires_fields_witness :
    ((analyze_case [("student_id", .vstr "S0001"),
       ("has_excuse_letter", .vbool true), ("valid_id", .vbool true),
       ("symptoms", .vlist [.vstr "cough"]),
       ("timestamp", .vdt ⟨2024, 1, 15, 9, 30⟩)]
       ⟨2024, 1, 15, 9, 30⟩).decision = "approve") ∧
    (∀ f ∈ requiredFields,
      hasKey (mergedFacts [("student_id", .vstr "S0001"),
        ("has_excuse_letter", .vbool true), ("valid_id", .vbool true),
        ("symptoms", .vlist [.vstr "cough"]),
        ("timestamp", .vdt ⟨2024, 1, 15, 9, 30⟩)]) f = true ∧
      truthy (fgetD (mergedFacts [("student_id", .vstr "S0001"),
        ("has_excuse_letter", .vbool true), ("valid_id", .vbool true),
        ("symptoms", .vlist [.vstr "cough"]),
        ("timestamp", .vdt ⟨2024, 1, 15, 9, 30⟩)]) f) = true) :=
  ⟨by decide,
   (C9_approve_requires_fields [("student_id", .vstr "S0001"),
     ("has_excuse_letter", .vbool true), ("valid_id", .vbool true),
     ("symptoms", .vlist [.vstr "cough"]),
     ("timestamp", .vdt ⟨2024, 1, 15, 9, 30⟩)] ⟨2024, 1, 15, 9, 30⟩
     (by decide)).1⟩

/-- C10: absent contract keys take the blackboard defaults
(`has_excuse_letter = False`, `valid_id = False`, `symptoms = []`,
`student_id = None`), and any mapping without a `has_excuse_letter`
entry — the empty mapping in particular — is rejected by nurse rule 1
with reason "No valid excuse letter or ID". -/
theorem C10_blackboard_defaults :
    (∀ cd : Dict, dgetOpt cd "has_excuse_letter" = none →
      dgetOpt (mergedFacts cd) "has_excuse_letter" = some (.vbool false)) ∧
    (∀ cd : Dict, dgetOpt cd "valid_id" = none →
      dgetOpt (mergedFacts cd) "valid_id" = some (.vbool false)) ∧
    (∀ cd : Dict, dgetOpt cd "symptoms" = none →
      dgetOpt (mergedFacts cd) "symptoms" = some (.vlist [])) ∧
    (∀ cd : Dict, dgetOpt cd "student_id" = none →
      dgetOpt (mergedFacts cd) "student_id" = some .vnone) ∧
    (∀ now : DateTime, analyze_case [] now = nurseRejectD) ∧
    (∀ (cd : Dict) (now : DateTime),
      dgetOpt cd "has_excuse_letter" = none →
      analyze_case cd now = nurseRejectD ∧
      (analyze_case cd now).reason = some "No valid excuse letter or ID") := by
  have habs : ∀ (cd : Dict) (k : String), dgetOpt cd k = none →
      dgetOpt (mergedFacts cd) k = dgetOpt defaultFacts k :=
    fun cd k h => mergedFacts_absent cd k h
  have hrej : ∀ (cd : Dict) (now : DateTime),
      dgetOpt cd "has_excuse_letter" = none →
      analyze_case cd now = nurseRejectD := by
    intro cd now h
    have hm : dgetOpt (mergedFacts cd) "has_excuse_letter" =
        some (.vbool false) := by
      rw [habs cd _ h]
      rfl
    have hb := processCaseBody_letter_false cd now hm
    simp [analyze_case, process_case, hb]
  refine ⟨?_, ?_, ?_, ?_, ?_, ?_⟩
  · intro cd h
    rw [habs cd _ h]
    rfl
  · intro cd h
    rw [habs cd _ h]
    rfl
  · intro cd h
    rw [habs cd _ h]
    rfl
  · intro cd h
    rw [habs cd _ h]
    rfl
  · intro now
    exact hrej [] now rfl
  · intro cd now h
    refine ⟨hrej cd now h, ?_⟩
    rw [hrej cd now h]
    rfl

/-- C10 witness: a mapping supplying only symptoms hits the defaults
and is rejected by nurse rule 1. -/
theorem C10_blackboard_defaults_witness :
    dgetOpt (mergedFacts [("symptoms", .vlist [.vstr "cough"])])
      "has_excuse_letter" = some (.vbool false) ∧
    analyze_case [("symptoms", .vlist [.vstr "cough"])]
      ⟨2024, 1, 15, 9, 30⟩ = nurseRejectD ∧
    analyze_case [] ⟨2024, 1, 15, 9, 30⟩ = nurseRejectD :=
  ⟨C10_blackboard_defaults.1 [("symptoms", .vlist [.vstr "cough"])] rfl,
   (C10_blackboard_defaults.2.2.2.2.2 [("symptoms", .vlist [.vstr "cough"])]
     ⟨2024, 1, 15, 9, 30⟩ rfl).1,
   C10_blackboard_defaults.2.2.2.2.1 ⟨2024, 1, 15, 9, 30⟩⟩

/-- C1: contrary to the spec's compatibility rule, a Facts mapping
without a `valid_id` key is NOT evaluated as if `valid_id` were true:
the blackboard pre-seeds `valid_id = False`, so the merged facts always
contain the key (first conjunct), the `not in` compatibility branch is
dead, and an otherwise-approvable case without the key is rejected by
nurse rule 1 while the same case with `valid_id = True` is approved —
the two decisions differ. -/
theorem C1_valid_id_defaults_false :
    hasKey (dupdate defaultFacts [("student_id", .vstr "S0001"),
      ("has_excuse_letter", .vbool true), ("symptoms", .vlist [.vstr "cough"]),
      ("timestamp", .vdt ⟨2024, 1, 15, 9, 30⟩)]) "valid_id" = true ∧
    analyze_case [("student_id", .vstr "S0001"),
      ("has_excuse_letter", .vbool true), ("symptoms", .vlist [.vstr "cough"]),
      ("timestamp", .vdt ⟨2024, 1, 15, 9, 30⟩)] ⟨2024, 1, 15, 9, 30⟩ =
      nurseRejectD ∧
    (analyze_case [("student_id", .vstr "S0001"),
      ("has_excuse_letter", .vbool true), ("symptoms", .vlist [.vstr "cough"]),
      ("timestamp", .vdt ⟨2024, 1, 15, 9, 30⟩),
      ("valid_id", .vbool true)] ⟨2024, 1, 15, 9, 30⟩).decision = "approve" ∧
    analyze_case [("student_id", .vstr "S0001"),
      ("has_excuse_letter", .vbool true), ("symptoms", .vlist [.vstr "cough"]),
      ("timestamp", .vdt ⟨2024, 1, 15, 9, 30⟩)] ⟨2024, 1, 15, 9, 30⟩ ≠
    analyze_case [("student_id", .vstr "S0001"),
      ("has_excuse_letter", .vbool true), ("symptoms", .vlist [.vstr "cough"]),
      ("timestamp", .vdt ⟨2024, 1, 15, 9, 30⟩),
      ("valid_id", .vbool true)] ⟨2024, 1, 15, 9, 30⟩ :=
  ⟨by decide, by decide, by decide, by decide⟩

/-- C4 counterexample: on exactly
`{has_excuse_letter: true, valid_id: true, symptoms: ["cough","fever"]}`
the pipeline's overall result is the staff rejection "Missing required
information for record" (the defaulted `student_id = None` and
`timestamp = None` fail the staff validation), so the overall decision
is not `approve`. -/
theorem C4_counterexample :
    analyze_case [("has_excuse_letter", .vbool true),
      ("valid_id", .vbool true),
      ("symptoms", .vlist [.vstr "cough", .vstr "fever"])]
      ⟨2024, 1, 15, 9, 30⟩ = staffMissingD ∧
    (analyze_case [("has_excuse_letter", .vbool true),
      ("valid_id", .vbool true),
      ("symptoms", .vlist [.vstr "cough", .vstr "fever"])]
      ⟨2024, 1, 15, 9, 30⟩).decision ≠ "approve" :=
  ⟨by decide, by decide⟩

/-- C4 amended: on those Facts the nurse stage does approve with
complexity `simple`, but the staff stage rejects with "Missing required
information for record" and that rejection is the overall result; with
a truthy `student_id` and `timestamp` additionally supplied, the staff
stage records and the overall result is `approve` with
`approved_by = nurse`. -/
theorem C4_amended :
    nurse_evaluate (mergedFacts [("has_excuse_letter", .vbool true),
      ("valid_id", .vbool true),
      ("symptoms", .vlist [.vstr "cough", .vstr "fever"])]) =
      .ok nurseApproveD ∧
    analyze_case [("has_excuse_letter", .vbool true),
      ("valid_id", .vbool true),
      ("symptoms", .vlist [.vstr "cough", .vstr "fever"])]
      ⟨2024, 1, 15, 9, 30⟩ = staffMissingD ∧
    stages_evaluated [("has_excuse_letter", .vbool true),
      ("valid_id", .vbool true),
      ("symptoms", .vlist [.vstr "cough", .vstr "fever"])]
      ⟨2024, 1, 15, 9, 30⟩ = some [Stage.nurse, Stage.staff] ∧
    analyze_case [("has_excuse_letter", .vbool true),
      ("valid_id", .vbool true),
      ("symptoms", .vlist [.vstr "cough", .vstr "fever"]),
      ("student_id", .vstr "S0001"),
      ("timestamp", .vdt ⟨2024, 1, 15, 9, 30⟩)] ⟨2024, 1, 15, 9, 30⟩ =
      { decision := "approve", record_id := some "MC-S0001-202401150930",
        approved_by := some "nurse" } :=
  ⟨by decide, by decide, by decide, by decide⟩

/-!
Arrival-rate lemmas for C7: the floor-based modulus lies in `[0, 24)`
and is the identity there.
-/

theorem qmod24_nonneg (x : ℚ) : 0 ≤ qmod24 x := by
  have h := Int.floor_le (x / 24)
  have h24 : (24 : ℚ) * (x / 24) = x := by ring
  unfold qmod24
  nlinarith [h]

theorem qmod24_lt_24 (x : ℚ) : qmod24 x < 24 := by
  have h := Int.lt_floor_add_one (x / 24)
  have h24 : (24 : ℚ) * (x / 24) = x := by ring
  unfold qmod24
  nlinarith [h]

theorem qmod24_eq_self (x : ℚ) (h0 : 0 ≤ x) (h24 : x < 24) :
    qmod24 x = x := by
  have hfl : ⌊x / 24⌋ = 0 := by
    apply Int.floor_eq_zero_iff.mpr
    constructor
    · exact div_nonneg h0 (by norm_num)
    · rw [div_lt_one (by norm_num : (0:ℚ) < 24)]
      exact h24
  unfold qmod24
  rw [hfl]
  ring

/-- C7: the peak-hour branch of `get_arrival_rate` is dead code — it
passes the already-computed hour of day back into `is_peak_hour`, which
divides by 60 again, so the compared value lies in `[0, 0.4)` and never
reaches a peak range: the delay bounds are `(15, 25)` at EVERY virtual
time.  In particular at `t = 600` minutes the hour of day is 10, inside
the configured peak range `(10, 11.5)` — `is_peak_hour 600` itself says
so — yet the drawn delay is off-peak. -/
theorem C7_arrival_rate_peak_dead :
    (∀ t : ℚ, get_arrival_rate t = (15, 25)) ∧
    is_peak_hour 600 = true := by
  constructor
  · intro t
    have h0 : 0 ≤ qmod24 (t / 60) := qmod24_nonneg _
    have h24 : qmod24 (t / 60) < 24 := qmod24_lt_24 _
    have hsmall : qmod24 (qmod24 (t / 60) / 60) = qmod24 (t / 60) / 60 := by
      apply qmod24_eq_self
      · exact div_nonneg h0 (by norm_num)
      · linarith
    have hlt : qmod24 (qmod24 (t / 60) / 60) < 10 := by
      rw [hsmall]
      linarith
    have hpk : is_peak_hour (qmod24 (t / 60)) = false := by
      have hn10 : ¬((10 : ℚ) ≤ qmod24 (qmod24 (t / 60) / 60)) := by linarith
      have hn135 : ¬((13.5 : ℚ) ≤ qmod24 (qmod24 (t / 60) / 60)) := by
        intro hc
        linarith
      simp [is_peak_hour, peakHours, hn10, hn135]
    simp [get_arrival_rate, hpk]
  · have h : qmod24 ((600 : ℚ) / 60) = 10 := by
      rw [show (600 : ℚ) / 60 = 10 by norm_num]
      exact qmod24_eq_self 10 (by norm_num) (by norm_num)
    simp only [is_peak_hour, peakHours, List.any_cons, List.any_nil, h]
    norm_num

end MedCert
